import Mathlib

/-!
# Verification of the log live-tailing subsystem (service.log)

A shallow embedding of the subscription registry (`watch.Watcher`:
`Subscribe`, `Unsubscribe`, `notifySubscribers`) and of the read handler
(`handler.ReadHandler.HandleRead`), together with proofs of the spec's
testable properties about them.

Conventions of the embedding:
* the storage query engine (`repository.LogRepository.Find`) is external to
  the verified core and is passed as a function parameter
  `find : LogQuery → Except GoError (List Event)`;
* a Go buffered channel is a bounded queue (`Chan`), and the non-blocking
  `select { case c <- e: default: }` send is the total function `trySend`;
* Go `time.Time` values are integers (seconds); the zero value of
  `time.Time` is `0`, so `t.IsZero()` becomes `t = 0`;
* channel identity (Go channels are comparable map keys) is a `Nat`;
  the registry map and the world of channel buffers are association lists.
-/

set_option linter.unusedVariables false

/-- Error codes of the `libraries/go/errors` package.
Modelled from the spec: the errors library is not under `src/`; the spec's
error taxonomy (§7) distinguishes *invalid-argument* (bad request) from
*internal* conditions, and the call sites in `src/` name the constructor
they use (`errors.InternalService`). -/
inductive ErrCode where
  | badRequest
  | internalService
  | notFound
deriving Repr, DecidableEq

/-- An error value: a code together with a message. -/
structure GoError where
  code : ErrCode
  msg : String
deriving Repr, DecidableEq

/-- Modelled from the spec: `errors.InternalService` (library not under
`src/`) builds an error of the internal-service condition carrying the
given message. -/
def errorsInternalService (msg : String) : GoError :=
  { code := ErrCode.internalService, msg := msg }

/-- Spec wording: an *invalid-argument* error is a bad-request condition,
distinct from the internal conditions (§7 taxonomy). Used to compare the
spec's claim about `Subscribe`'s error against the code's error. -/
def isInvalidArgument (e : GoError) : Bool :=
  e.code = ErrCode.badRequest

/-- `domain.Event`. Modelled from the spec: the `domain` package is not
under `src/`; §3 gives the fields (monotonically assigned `UUID`, service
name, severity, timestamp, message). Only `uuid` is read by the code under
`src/`. -/
structure Event where
  uuid : String
  service : String
  severity : Int
  timestamp : Int
  message : String
deriving Repr, DecidableEq

/-- `repository.LogQuery`, with the fields the code under `src/`
constructs and reads (`parseQuery` in read.go builds exactly these). -/
structure LogQuery where
  services : List String
  severity : Int
  sinceTime : Int
  untilTime : Int
  sinceUUID : String
  reverse : Bool
deriving Repr, DecidableEq

/-- A Go buffered channel of events, seen from the sender's side: a
bounded FIFO queue with capacity `cap` and current contents `buf`. -/
structure Chan where
  cap : Nat
  buf : List Event
deriving Repr, DecidableEq

/-- The non-blocking send `select { case c <- event: default: }` of
notifySubscribers: enqueue when the buffer has room, otherwise drop the
event and leave the channel unchanged. Total: there is no blocking branch. -/
def trySend (ch : Chan) (e : Event) : Chan :=
  if ch.buf.length < ch.cap then { ch with buf := ch.buf ++ [e] } else ch

/-- Channel identity: Go channels are comparable and used as map keys. -/
abbrev ChanId := Nat

/-- Map update / insert for the subscriber map `w.subscribers[c] = q`. -/
def setSub : List (ChanId × LogQuery) → ChanId → LogQuery → List (ChanId × LogQuery)
  | [], c, q => [(c, q)]
  | (c0, q0) :: rest, c, q =>
      if c0 = c then (c, q) :: rest else (c0, q0) :: setSub rest c q

/-- Map deletion for `delete(w.subscribers, c)`. -/
def delSub : List (ChanId × LogQuery) → ChanId → List (ChanId × LogQuery)
  | [], _ => []
  | (c0, q0) :: rest, c =>
      if c0 = c then delSub rest c else (c0, q0) :: delSub rest c

/-- Lookup in the world of channel buffers. -/
def lookupChan : List (ChanId × Chan) → ChanId → Option Chan
  | [], _ => none
  | (c0, ch) :: rest, c => if c0 = c then some ch else lookupChan rest c

/-- Update / insert in the world of channel buffers. -/
def setChan : List (ChanId × Chan) → ChanId → Chan → List (ChanId × Chan)
  | [], c, ch => [(c, ch)]
  | (c0, ch0) :: rest, c, ch =>
      if c0 = c then (c, ch) :: rest else (c0, ch0) :: setChan rest c ch

/-- The channel a subscriber entry refers to (absent channels read as an
empty zero-capacity buffer; `notifySubscribers` only ever reads channels
of registered subscribers). -/
def getChan (cs : List (ChanId × Chan)) (c : ChanId) : Chan :=
  (lookupChan cs c).getD { cap := 0, buf := [] }

/-- The state touched by the watcher: the registry's subscriber map
(`Watcher.subscribers`) together with the buffers of all delivery
channels. The Go code shares the channels between registry and connection
handlers; here they live next to the map so that delivery is observable. -/
structure System where
  subscribers : List (ChanId × LogQuery)
  chans : List (ChanId × Chan)
deriving Repr, DecidableEq

/-- `Watcher.Subscribe`: reject a query with an empty `SinceUUID` with the
error built by `errors.InternalService`, otherwise store the (channel,
query) pair in the map (insert or overwrite). -/
def Subscribe (s : System) (c : ChanId) (q : LogQuery) : Except GoError System :=
  if q.sinceUUID = "" then
    Except.error (errorsInternalService "SinceUUID not set in subscriber query")
  else
    Except.ok { s with subscribers := setSub s.subscribers c q }

/-- `Watcher.Unsubscribe`: `delete(w.subscribers, c)`. The channel itself
is untouched (in particular never closed): only the map changes. -/
def Unsubscribe (s : System) (c : ChanId) : System :=
  { s with subscribers := delSub s.subscribers c }

/-- The body of the per-subscriber step of `Watcher.notifySubscribers`:
force `q.Reverse = false`, query the repository, on error continue with
nothing sent, on success try-send every event in order and then advance
`q.SinceUUID` to the UUID of the last event when the batch is non-empty. -/
def notifyOne (find : LogQuery → Except GoError (List Event))
    (q : LogQuery) (ch : Chan) : LogQuery × Chan :=
  let q := { q with reverse := false }
  match find q with
  | Except.error _ => (q, ch)
  | Except.ok events =>
      let ch := events.foldl trySend ch
      match events.getLast? with
      | some e => ({ q with sinceUUID := e.uuid }, ch)
      | none => (q, ch)

/-- The query update performed by one per-subscriber step, in isolation:
`notifyOne`'s first component never depends on the channel state. -/
def advanceQuery (find : LogQuery → Except GoError (List Event))
    (q : LogQuery) : LogQuery :=
  let q := { q with reverse := false }
  match find q with
  | Except.error _ => q
  | Except.ok events =>
      match events.getLast? with
      | some e => { q with sinceUUID := e.uuid }
      | none => q

/-- The loop of `Watcher.notifySubscribers` over the subscriber map:
each subscriber is processed by `notifyOne`; its query is updated in
place and its channel buffer is updated in the world of channels. -/
def notifyList (find : LogQuery → Except GoError (List Event)) :
    List (ChanId × LogQuery) → List (ChanId × Chan) →
    List (ChanId × LogQuery) × List (ChanId × Chan)
  | [], chans => ([], chans)
  | (c, q) :: rest, chans =>
      let step := notifyOne find q (getChan chans c)
      let tail := notifyList find rest (setChan chans c step.2)
      ((c, step.1) :: tail.1, tail.2)

/-- `Watcher.notifySubscribers`: one notify pass over the whole system. -/
def notifySubscribers (find : LogQuery → Except GoError (List Event))
    (s : System) : System :=
  let r := notifyList find s.subscribers s.chans
  { subscribers := r.1, chans := r.2 }

/-- `time.Hour` relative to the second-valued clock of the embedding. -/
def oneHour : Int := 3600

/-- The data handed to the template by `HandleRead` (read.go's anonymous
response struct). `FormattedEvents` keeps the raw events: `Event.Format`
lives in the `domain` package, which is not under `src/`, and no claim
concerns the formatting itself. Time fields keep the query's values (the
Go code formats them to strings for display). -/
structure ReadResponse where
  formattedEvents : List Event
  services : List String
  severity : Int
  sinceTime : Int
  untilTime : Int
  lastUUID : String
  reverse : Bool
deriving Repr, DecidableEq

/-- `ReadHandler.HandleRead`: default a zero `SinceTime` to an hour before
now and a zero `UntilTime` to now, run the historical query, compute the
resume cursor `lastUUID` (empty for an empty batch; first event's UUID
when `reverse`, last event's UUID otherwise) and build the response.
Template parsing and execution are filesystem I/O outside the model. -/
def HandleRead (find : LogQuery → Except GoError (List Event))
    (now : Int) (query : LogQuery) : Except GoError ReadResponse :=
  let query := if query.sinceTime = 0 then { query with sinceTime := now - oneHour } else query
  let query := if query.untilTime = 0 then { query with untilTime := now } else query
  match find query with
  | Except.error err => Except.error err
  | Except.ok events =>
      let lastUUID :=
        if events.length > 0 then
          if query.reverse then ((events.head?).map Event.uuid).getD ""
          else ((events.getLast?).map Event.uuid).getD ""
        else ""
      Except.ok
        { formattedEvents := events
          services := query.services
          severity := query.severity
          sinceTime := query.sinceTime
          untilTime := query.untilTime
          lastUUID := lastUUID
          reverse := query.reverse }

/-- The query `HandleRead` actually hands to the storage engine: the
caller's query with unset time bounds defaulted to the trailing one-hour
window. Proved below to be the argument of the single `find` call. -/
def defaultedQuery (now : Int) (query : LogQuery) : LogQuery :=
  { query with
      sinceTime := if query.sinceTime = 0 then now - oneHour else query.sinceTime
      untilTime := if query.untilTime = 0 then now else query.untilTime }

/-- A sequence of notify passes as seen by one subscriber: each pass may
see a different storage state, so each carries its own `find` function
(storage grows between passes; `Find` itself is side-effect-free). -/
def runPasses (finds : List (LogQuery → Except GoError (List Event)))
    (q : LogQuery) (ch : Chan) : LogQuery × Chan :=
  match finds with
  | [] => (q, ch)
  | f :: rest =>
      let s := notifyOne f q ch
      runPasses rest s.1 s.2

/-- The part of the storage engine's `Find` contract (§6) the registry
relies on: a successful result contains only events whose UUID is
strictly after the query's cursor, in the assignment order `lt`. -/
def FindAfterCursor (lt : String → String → Prop)
    (find : LogQuery → Except GoError (List Event)) : Prop :=
  ∀ q events, find q = Except.ok events → ∀ e ∈ events, lt q.sinceUUID e.uuid

-- sanity checks of the embedding on concrete values
example :
    trySend { cap := 1, buf := [] }
      { uuid := "u1", service := "s", severity := 0, timestamp := 0, message := "" }
      = { cap := 1, buf := [{ uuid := "u1", service := "s", severity := 0, timestamp := 0, message := "" }] } := by
  decide

example :
    Subscribe { subscribers := [], chans := [] } 0
      { services := [], severity := 0, sinceTime := 0, untilTime := 0, sinceUUID := "", reverse := false }
      = Except.error { code := ErrCode.internalService, msg := "SinceUUID not set in subscriber query" } := by
  rfl

/-! ## Concrete fixtures

Small concrete storage states used to evaluate the theorems on explicit
inputs. `demoFind` behaves like the storage engine on a fixed directory of
three events with UUIDs `"1"`, `"22"`, `"333"`, whose assignment order is
their length order (a computable stand-in for UUID assignment order): it
returns the events strictly after the cursor, oldest-first. -/

def mkEvent (u : String) : Event :=
  { uuid := u, service := "lighting", severity := 0, timestamp := 0, message := "m" }

def demoEvents : List Event :=
  [mkEvent "1", mkEvent "22", mkEvent "333"]

def demoFind : LogQuery → Except GoError (List Event) :=
  fun q => Except.ok (demoEvents.filter fun e => q.sinceUUID.length < e.uuid.length)

def demoQuery : LogQuery :=
  { services := ["lighting"], severity := 0, sinceTime := 0, untilTime := 0,
    sinceUUID := "1", reverse := true }

def failFind : LogQuery → Except GoError (List Event) :=
  fun _ => Except.error (errorsInternalService "failed to read log file")

def reverseTrapFind : LogQuery → Except GoError (List Event) :=
  fun q =>
    if q.reverse then Except.error (errorsInternalService "queried with reverse set")
    else demoFind q

def emptyFind : LogQuery → Except GoError (List Event) :=
  fun _ => Except.ok []

/-! ## Helper lemmas -/

theorem notifyOne_fst (find : LogQuery → Except GoError (List Event))
    (q : LogQuery) (ch : Chan) :
    (notifyOne find q ch).1 = advanceQuery find q := by
  cases h : find { q with reverse := false } with
  | error err => simp [notifyOne, advanceQuery, h]
  | ok events =>
      cases hlast : events.getLast? <;> simp [notifyOne, advanceQuery, h, hlast]

theorem advanceQuery_of_error (find : LogQuery → Except GoError (List Event))
    (q : LogQuery) (err : GoError)
    (h : find { q with reverse := false } = Except.error err) :
    advanceQuery find q = { q with reverse := false } := by
  simp [advanceQuery, h]

theorem advanceQuery_of_last (find : LogQuery → Except GoError (List Event))
    (q : LogQuery) (events : List Event) (e : Event)
    (h : find { q with reverse := false } = Except.ok events)
    (hlast : events.getLast? = some e) :
    advanceQuery find q = { q with reverse := false, sinceUUID := e.uuid } := by
  simp [advanceQuery, h, hlast]

theorem advanceQuery_of_empty (find : LogQuery → Except GoError (List Event))
    (q : LogQuery) (events : List Event)
    (h : find { q with reverse := false } = Except.ok events)
    (hlast : events.getLast? = none) :
    advanceQuery find q = { q with reverse := false } := by
  simp [advanceQuery, h, hlast]

theorem advanceQuery_reverse (find : LogQuery → Except GoError (List Event))
    (q : LogQuery) : (advanceQuery find q).reverse = false := by
  cases h : find { q with reverse := false } with
  | error err => simp [advanceQuery, h]
  | ok events =>
      cases hlast : events.getLast? <;> simp [advanceQuery, h, hlast]

theorem advanceQuery_sinceUUID (find : LogQuery → Except GoError (List Event))
    (q : LogQuery) :
    (advanceQuery find q).sinceUUID = q.sinceUUID ∨
      ∃ events e, find { q with reverse := false } = Except.ok events ∧
        events.getLast? = some e ∧ (advanceQuery find q).sinceUUID = e.uuid := by
  cases h : find { q with reverse := false } with
  | error err => exact Or.inl (by rw [advanceQuery_of_error find q _ h])
  | ok events =>
      cases hlast : events.getLast? with
      | none => exact Or.inl (by rw [advanceQuery_of_empty find q events h hlast])
      | some e =>
          exact Or.inr ⟨events, e, rfl, hlast, by rw [advanceQuery_of_last find q events e h hlast]⟩

theorem notifyList_fst (find : LogQuery → Except GoError (List Event))
    (subs : List (ChanId × LogQuery)) (chans : List (ChanId × Chan)) :
    (notifyList find subs chans).1
      = subs.map (fun p => (p.1, advanceQuery find p.2)) := by
  induction subs generalizing chans with
  | nil => rfl
  | cons p rest ih =>
      obtain ⟨c, q⟩ := p
      simp only [notifyList, List.map_cons, notifyOne_fst]
      exact congrArg _ (ih _)

theorem lookupChan_setChan_ne (cs : List (ChanId × Chan)) (c0 c : ChanId)
    (ch : Chan) (hne : c ≠ c0) :
    lookupChan (setChan cs c0 ch) c = lookupChan cs c := by
  induction cs with
  | nil => simp [setChan, lookupChan, hne.symm]
  | cons p rest ih =>
      obtain ⟨c1, ch1⟩ := p
      by_cases h1 : c1 = c0
      · subst h1
        simp [setChan, lookupChan, hne.symm]
      · simp [setChan, lookupChan, h1, ih]

theorem notifyList_chans_of_not_mem (find : LogQuery → Except GoError (List Event))
    (subs : List (ChanId × LogQuery)) (chans : List (ChanId × Chan))
    (c : ChanId) (hnot : ∀ p ∈ subs, p.1 ≠ c) :
    lookupChan (notifyList find subs chans).2 c = lookupChan chans c := by
  induction subs generalizing chans with
  | nil => rfl
  | cons p rest ih =>
      obtain ⟨c0, q⟩ := p
      have hc0 : c0 ≠ c := hnot (c0, q) (List.mem_cons_self _ _)
      have hrest : ∀ p ∈ rest, p.1 ≠ c := fun p hp => hnot p (List.mem_cons_of_mem _ hp)
      simp only [notifyList]
      rw [ih _ hrest, lookupChan_setChan_ne _ _ _ _ (Ne.symm hc0)]

theorem delSub_delSub (l : List (ChanId × LogQuery)) (c : ChanId) :
    delSub (delSub l c) c = delSub l c := by
  induction l with
  | nil => rfl
  | cons p rest ih =>
      obtain ⟨c0, q0⟩ := p
      by_cases h : c0 = c
      · simp [delSub, h, ih]
      · simp [delSub, h, ih]

theorem delSub_of_not_mem (l : List (ChanId × LogQuery)) (c : ChanId)
    (hnot : ∀ p ∈ l, p.1 ≠ c) : delSub l c = l := by
  induction l with
  | nil => rfl
  | cons p rest ih =>
      obtain ⟨c0, q0⟩ := p
      have hc0 : c0 ≠ c := hnot (c0, q0) (List.mem_cons_self _ _)
      simp [delSub, hc0, ih fun p hp => hnot p (List.mem_cons_of_mem _ hp)]

theorem delSub_ne_key (l : List (ChanId × LogQuery)) (c : ChanId) :
    ∀ p ∈ delSub l c, p.1 ≠ c := by
  induction l with
  | nil => simp [delSub]
  | cons p0 rest ih =>
      obtain ⟨c0, q0⟩ := p0
      by_cases h : c0 = c
      · simpa [delSub, h] using ih
      · intro p hp
        rcases List.mem_cons.mp (by simpa [delSub, h] using hp) with rfl | hp'
        · exact h
        · exact ih p hp'

theorem mem_delSub_of_ne (l : List (ChanId × LogQuery)) (c : ChanId)
    (p : ChanId × LogQuery) (hp : p ∈ l) (hne : p.1 ≠ c) : p ∈ delSub l c := by
  induction l with
  | nil => exact absurd hp (List.not_mem_nil p)
  | cons p0 rest ih =>
      obtain ⟨c0, q0⟩ := p0
      rcases List.mem_cons.mp hp with rfl | hp'
      · have h : c0 ≠ c := hne
        simp [delSub, h]
      · by_cases h : c0 = c
        · simpa [delSub, h] using ih hp'
        · simp only [delSub, if_neg h]
          exact List.mem_cons_of_mem _ (ih hp')

theorem pairwise_getLast (r : String → String → Prop) (l : List Event) (x : Event)
    (hp : l.Pairwise (fun a b => r a.uuid b.uuid)) (hl : l.getLast? = some x) :
    ∀ y ∈ l, y = x ∨ r y.uuid x.uuid := by
  induction l with
  | nil => simp at hl
  | cons a t ih =>
      cases t with
      | nil =>
          simp only [List.getLast?_singleton, Option.some.injEq] at hl
          intro y hy
          simp only [List.mem_singleton] at hy
          exact Or.inl (hy.trans hl)
      | cons b t' =>
          rw [List.getLast?_cons_cons] at hl
          have hp' := (List.pairwise_cons.mp hp).2
          have ha := (List.pairwise_cons.mp hp).1
          have hxmem : x ∈ b :: t' := List.mem_of_getLast?_eq_some hl
          intro y hy
          rcases List.mem_cons.mp hy with rfl | hy'
          · exact Or.inr (ha x hxmem)
          · exact ih hp' hl y hy'

theorem HandleRead_eq_defaulted (find : LogQuery → Except GoError (List Event))
    (now : Int) (q : LogQuery) :
    HandleRead find now q =
      match find (defaultedQuery now q) with
      | Except.error err => Except.error err
      | Except.ok events =>
          Except.ok
            { formattedEvents := events
              services := q.services
              severity := q.severity
              sinceTime := (defaultedQuery now q).sinceTime
              untilTime := (defaultedQuery now q).untilTime
              lastUUID :=
                if events.length > 0 then
                  if q.reverse then ((events.head?).map Event.uuid).getD ""
                  else ((events.getLast?).map Event.uuid).getD ""
                else ""
              reverse := q.reverse } := by
  by_cases h1 : q.sinceTime = 0 <;> by_cases h2 : q.untilTime = 0 <;>
    simp [HandleRead, defaultedQuery, h1, h2]

theorem notifyOne_congr (find find' : LogQuery → Except GoError (List Event))
    (h : ∀ q2 : LogQuery, q2.reverse = false → find q2 = find' q2)
    (q : LogQuery) (ch : Chan) :
    notifyOne find q ch = notifyOne find' q ch := by
  simp only [notifyOne]
  rw [h { q with reverse := false } rfl]

theorem notifyList_congr (find find' : LogQuery → Except GoError (List Event))
    (h : ∀ q2 : LogQuery, q2.reverse = false → find q2 = find' q2)
    (subs : List (ChanId × LogQuery)) (chans : List (ChanId × Chan)) :
    notifyList find subs chans = notifyList find' subs chans := by
  induction subs generalizing chans with
  | nil => rfl
  | cons p rest ih =>
      obtain ⟨c, q⟩ := p
      simp only [notifyList]
      rw [notifyOne_congr find find' h q (getChan chans c), ih]

theorem runPasses_cursor (lt : String → String → Prop) (htrans : Transitive lt)
    (finds : List (LogQuery → Except GoError (List Event)))
    (hc : ∀ f ∈ finds, FindAfterCursor lt f) (q : LogQuery) (ch : Chan) :
    (runPasses finds q ch).1.sinceUUID = q.sinceUUID ∨
      lt q.sinceUUID (runPasses finds q ch).1.sinceUUID := by
  induction finds generalizing q ch with
  | nil => exact Or.inl rfl
  | cons f rest ih =>
      have hstep : (notifyOne f q ch).1.sinceUUID = q.sinceUUID ∨
          lt q.sinceUUID (notifyOne f q ch).1.sinceUUID := by
        rw [notifyOne_fst]
        rcases advanceQuery_sinceUUID f q with h | ⟨events, e, hfind, hlast, heq⟩
        · exact Or.inl h
        · right
          rw [heq]
          exact hc f (List.mem_cons_self _ _) _ events hfind e
            (List.mem_of_getLast?_eq_some hlast)
      have hrest := ih (fun f' hf' => hc f' (List.mem_cons_of_mem _ hf'))
        (notifyOne f q ch).1 (notifyOne f q ch).2
      have hrun : runPasses (f :: rest) q ch
          = runPasses rest (notifyOne f q ch).1 (notifyOne f q ch).2 := rfl
      rw [hrun]
      rcases hrest with h2 | h2
      · rw [h2]
        exact hstep
      · rcases hstep with h1 | h1
        · rw [h1] at h2
          exact Or.inr h2
        · exact Or.inr (htrans h1 h2)

/-! ## Claims -/

/-- C1 (as amended): for every query with an empty `sinceUUID`,
`Subscribe` returns the error built by `errors.InternalService` — an
internal-service error, not an invalid-argument one — and adds no
subscriber entry (the error branch returns before the map is touched); a
subsequent notify pass delivers nothing to a channel that is not
registered. -/
theorem subscribe_rejects_empty_cursor (s : System) (c : ChanId) (q : LogQuery)
    (find : LogQuery → Except GoError (List Event))
    (hq : q.sinceUUID = "") (hnot : ∀ p ∈ s.subscribers, p.1 ≠ c) :
    Subscribe s c q
        = Except.error (errorsInternalService "SinceUUID not set in subscriber query") ∧
      lookupChan (notifySubscribers find s).chans c = lookupChan s.chans c := by
  constructor
  · simp [Subscribe, hq]
  · exact notifyList_chans_of_not_mem find s.subscribers s.chans c hnot

/-- C1 witness: the rejected subscription on a concrete registry with one
other subscriber; the other channel's buffer exists and channel 7 is
untouched by the notify pass. -/
theorem subscribe_rejects_empty_cursor_witness :
    Subscribe
        { subscribers := [(1, demoQuery)],
          chans := [(1, { cap := 2, buf := [] }), (7, { cap := 2, buf := [] })] }
        7 { demoQuery with sinceUUID := "" }
      = Except.error (errorsInternalService "SinceUUID not set in subscriber query") ∧
    lookupChan
        (notifySubscribers demoFind
          { subscribers := [(1, demoQuery)],
            chans := [(1, { cap := 2, buf := [] }), (7, { cap := 2, buf := [] })] }).chans 7
      = lookupChan
          [(1, { cap := 2, buf := [] }), (7, { cap := 2, buf := [] })] 7 :=
  subscribe_rejects_empty_cursor
    { subscribers := [(1, demoQuery)],
      chans := [(1, { cap := 2, buf := [] }), (7, { cap := 2, buf := [] })] }
    7 { demoQuery with sinceUUID := "" } demoFind rfl (by decide)

/-- C1 counterexample: the claim says the error is an *invalid-argument*
condition, but at this concrete input the code returns the error of
`errors.InternalService` — the same internal-service condition used for
configuration errors — which is not an invalid-argument error. -/
theorem subscribe_empty_cursor_error_is_internal :
    Subscribe { subscribers := [], chans := [] } 0
        { services := [], severity := 0, sinceTime := 0, untilTime := 0,
          sinceUUID := "", reverse := false }
      = Except.error { code := ErrCode.internalService,
                       msg := "SinceUUID not set in subscriber query" } ∧
    isInvalidArgument
        { code := ErrCode.internalService,
          msg := "SinceUUID not set in subscriber query" } = false :=
  ⟨rfl, rfl⟩

/-- C2: in a notify pass, when the storage query returns a non-empty
batch (oldest-first along the assignment order `lt`), the subscriber's
`sinceUUID` becomes the UUID of the last event of the batch for *every*
channel state — the cursor update never looks at whether the try-sends
succeeded. The next pass from the advanced cursor sends exactly the next
batch, and (by the Find contract: only events strictly after the cursor)
no event of the first batch — delivered or dropped — recurs in it. -/
theorem cursor_advances_past_dropped_events
    (lt : String → String → Prop) (htrans : Transitive lt) (hirr : Irreflexive lt)
    (find : LogQuery → Except GoError (List Event)) (q : LogQuery)
    (events1 : List Event) (e1 : Event)
    (h1 : find { q with reverse := false } = Except.ok events1)
    (hlast : events1.getLast? = some e1)
    (hsorted : events1.Pairwise (fun a b => lt a.uuid b.uuid))
    (events2 : List Event)
    (h2 : find { q with reverse := false, sinceUUID := e1.uuid } = Except.ok events2)
    (hafter : ∀ e ∈ events2, lt e1.uuid e.uuid) :
    (∀ ch : Chan, (notifyOne find q ch).1.sinceUUID = e1.uuid) ∧
    (∀ ch ch2 : Chan,
      (notifyOne find (notifyOne find q ch).1 ch2).2 = events2.foldl trySend ch2) ∧
    (∀ e ∈ events1, ∀ e' ∈ events2, e.uuid ≠ e'.uuid) := by
  have hadv : ∀ ch : Chan,
      (notifyOne find q ch).1 = { q with reverse := false, sinceUUID := e1.uuid } := by
    intro ch
    rw [notifyOne_fst, advanceQuery_of_last find q events1 e1 h1 hlast]
  refine ⟨?_, ?_, ?_⟩
  · intro ch
    rw [hadv ch]
  · intro ch ch2
    rw [hadv ch]
    have h2' : find { ({ q with reverse := false, sinceUUID := e1.uuid } : LogQuery)
        with reverse := false } = Except.ok events2 := h2
    cases hl2 : events2.getLast? <;> simp [notifyOne, h2', hl2]
  · intro e he e' he' heq
    rcases pairwise_getLast lt events1 e1 hsorted hlast e he with rfl | hlt
    · exact hirr e.uuid (heq ▸ hafter e' he')
    · exact hirr e.uuid (htrans hlt (heq ▸ hafter e' he'))

/-- C2 witness: a subscriber at cursor `"1"` over the three-event store:
the pass advances the cursor to `"333"` whatever the channel looks like,
the next pass sends nothing new, and the two batches share no UUID. -/
theorem cursor_advances_past_dropped_events_witness :
    (∀ ch : Chan, (notifyOne demoFind demoQuery ch).1.sinceUUID = "333") ∧
    (∀ ch ch2 : Chan,
      (notifyOne demoFind (notifyOne demoFind demoQuery ch).1 ch2).2
        = ([] : List Event).foldl trySend ch2) ∧
    (∀ e ∈ [mkEvent "22", mkEvent "333"], ∀ e' ∈ ([] : List Event), e.uuid ≠ e'.uuid) :=
  cursor_advances_past_dropped_events (fun a b => a.length < b.length)
    (fun _ _ _ hab hbc => lt_trans hab hbc) (fun a => lt_irrefl a.length)
    demoFind demoQuery [mkEvent "22", mkEvent "333"] (mkEvent "333")
    rfl rfl (by decide) [] rfl (by simp)

/-- C3: cursor monotonicity. For any single pass the subscriber's
`sinceUUID` is either unchanged (error or empty batch) or the UUID of the
last event of that pass's oldest-first result; and assuming the `Find`
contract — every returned event's UUID strictly after the query's cursor
in the assignment order `lt` — the cursor never moves backward over any
sequence of notify passes. -/
theorem cursor_monotonicity (lt : String → String → Prop) (htrans : Transitive lt)
    (finds : List (LogQuery → Except GoError (List Event)))
    (hc : ∀ f ∈ finds, FindAfterCursor lt f) (q : LogQuery) (ch : Chan) :
    (∀ (f : LogQuery → Except GoError (List Event)) (q0 : LogQuery) (ch0 : Chan),
      (notifyOne f q0 ch0).1.sinceUUID = q0.sinceUUID ∨
        ∃ events e, f { q0 with reverse := false } = Except.ok events ∧
          events.getLast? = some e ∧ (notifyOne f q0 ch0).1.sinceUUID = e.uuid) ∧
    ((runPasses finds q ch).1.sinceUUID = q.sinceUUID ∨
      lt q.sinceUUID (runPasses finds q ch).1.sinceUUID) := by
  constructor
  · intro f q0 ch0
    rw [notifyOne_fst]
    exact advanceQuery_sinceUUID f q0
  · exact runPasses_cursor lt htrans finds hc q ch

/-- C3 witness: two consecutive passes of the demo store from cursor
`"1"`: the first pass ends at `"333"`, the second is empty and keeps it;
the final cursor is strictly after the initial one. -/
theorem cursor_monotonicity_witness :
    (∀ (f : LogQuery → Except GoError (List Event)) (q0 : LogQuery) (ch0 : Chan),
      (notifyOne f q0 ch0).1.sinceUUID = q0.sinceUUID ∨
        ∃ events e, f { q0 with reverse := false } = Except.ok events ∧
          events.getLast? = some e ∧ (notifyOne f q0 ch0).1.sinceUUID = e.uuid) ∧
    ((runPasses [demoFind, demoFind] demoQuery { cap := 1, buf := [] }).1.sinceUUID
        = demoQuery.sinceUUID ∨
      ((demoQuery.sinceUUID.length : Nat)
        < (runPasses [demoFind, demoFind] demoQuery { cap := 1, buf := [] }).1.sinceUUID.length)) :=
  cursor_monotonicity (fun a b => a.length < b.length)
    (fun _ _ _ hab hbc => lt_trans hab hbc)
    [demoFind, demoFind]
    (by
      intro f hf q events h e he
      have hfd : f = demoFind := by
        rcases List.mem_cons.mp hf with h1 | h1
        · exact h1
        · rcases List.mem_cons.mp h1 with h2 | h2
          · exact h2
          · exact absurd h2 (List.not_mem_nil f)
      subst hfd
      simp only [demoFind, Except.ok.injEq] at h
      subst h
      simp only [List.mem_filter, decide_eq_true_eq] at he
      exact he.2)
    demoQuery { cap := 1, buf := [] }

/-- C4: delivery is non-blocking. The send is the total function
`trySend`; on a full buffer it leaves the channel unchanged (the event is
dropped, no retry, no backlog), and a notify pass produces the same
subscriber map — every subscriber processed, every cursor advanced —
whatever the channel states are. -/
theorem notify_delivery_nonblocking (find : LogQuery → Except GoError (List Event)) :
    (∀ (ch : Chan) (e : Event), ch.cap ≤ ch.buf.length → trySend ch e = ch) ∧
    (∀ (subs : List (ChanId × LogQuery)) (chans chans' : List (ChanId × Chan)),
      (notifySubscribers find { subscribers := subs, chans := chans }).subscribers
        = (notifySubscribers find { subscribers := subs, chans := chans' }).subscribers) := by
  constructor
  · intro ch e h
    simp [trySend, Nat.not_lt.mpr h]
  · intro subs chans chans'
    simp [notifySubscribers, notifyList_fst]

/-- C4 witness: a full one-slot channel swallows the send unchanged, and
the notify pass over the demo registry yields the same subscriber map for
an empty channel world and for one with a full channel. -/
theorem notify_delivery_nonblocking_witness :
    trySend { cap := 1, buf := [mkEvent "1"] } (mkEvent "22")
        = { cap := 1, buf := [mkEvent "1"] } ∧
    (notifySubscribers demoFind
        { subscribers := [(1, demoQuery)], chans := [] }).subscribers
      = (notifySubscribers demoFind
        { subscribers := [(1, demoQuery)],
          chans := [(1, { cap := 1, buf := [mkEvent "1"] })] }).subscribers :=
  ⟨(notify_delivery_nonblocking demoFind).1
      { cap := 1, buf := [mkEvent "1"] } (mkEvent "22") (by decide),
    (notify_delivery_nonblocking demoFind).2 [(1, demoQuery)] []
      [(1, { cap := 1, buf := [mkEvent "1"] })]⟩

/-- C5: when the storage query for a subscriber fails, the notify pass
keeps every registered channel registered (the key list of the map is
unchanged), the failed subscriber's entry carries its query with the
cursor untouched (only `reverse` was normalized before the query), and the
loop goes on: every subscriber still gets its own entry in the result. -/
theorem query_error_keeps_subscriber (find : LogQuery → Except GoError (List Event))
    (s : System) (c : ChanId) (q : LogQuery) (err : GoError)
    (hmem : (c, q) ∈ s.subscribers)
    (herr : find { q with reverse := false } = Except.error err) :
    (notifySubscribers find s).subscribers.map Prod.fst
        = s.subscribers.map Prod.fst ∧
    (c, { q with reverse := false }) ∈ (notifySubscribers find s).subscribers ∧
    ({ q with reverse := false } : LogQuery).sinceUUID = q.sinceUUID := by
  refine ⟨?_, ?_, rfl⟩
  · simp [notifySubscribers, notifyList_fst, List.map_map, Function.comp]
  · simp only [notifySubscribers, notifyList_fst]
    have heq : ((c, q).1, advanceQuery find (c, q).2) = (c, { q with reverse := false }) := by
      simp [advanceQuery_of_error find q err herr]
    exact heq ▸ List.mem_map_of_mem (fun p => (p.1, advanceQuery find p.2)) hmem

/-- C5 witness: a failing storage engine over a one-subscriber registry:
the key list survives the pass, the subscriber's entry keeps its cursor
(`"1"`), only `reverse` has been normalized. -/
theorem query_error_keeps_subscriber_witness :
    (notifySubscribers failFind
        { subscribers := [(1, demoQuery)], chans := [] }).subscribers.map Prod.fst
        = (({ subscribers := [(1, demoQuery)], chans := [] } : System)).subscribers.map Prod.fst ∧
    (1, { demoQuery with reverse := false })
        ∈ (notifySubscribers failFind
            { subscribers := [(1, demoQuery)], chans := [] }).subscribers ∧
    ({ demoQuery with reverse := false } : LogQuery).sinceUUID = demoQuery.sinceUUID :=
  query_error_keeps_subscriber failFind
    { subscribers := [(1, demoQuery)], chans := [] } 1 demoQuery
    (errorsInternalService "failed to read log file")
    (List.mem_cons_self _ _) rfl

/-- C6: after a notify pass every subscriber's query has `reverse =
false`, whatever it was at subscribe time; and the normalization happens
before the storage query — any two engines that agree on reverse-false
queries produce identical passes, so the engine is only ever consulted
with the normalized query. -/
theorem notify_normalizes_reverse (find : LogQuery → Except GoError (List Event))
    (s : System) :
    (∀ p ∈ (notifySubscribers find s).subscribers, p.2.reverse = false) ∧
    (∀ find' : LogQuery → Except GoError (List Event),
      (∀ q2 : LogQuery, q2.reverse = false → find q2 = find' q2) →
      notifySubscribers find s = notifySubscribers find' s) := by
  constructor
  · intro p hp
    simp only [notifySubscribers, notifyList_fst] at hp
    obtain ⟨p0, hp0, rfl⟩ := List.mem_map.mp hp
    exact advanceQuery_reverse find p0.2
  · intro find' h
    simp [notifySubscribers, notifyList_congr find find' h]

/-- C6 witness: the demo subscriber subscribed with `reverse = true`; the
pass leaves `reverse = false` everywhere, and an engine that errors on any
reverse query is indistinguishable — the pass never asks one. -/
theorem notify_normalizes_reverse_witness :
    (∀ p ∈ (notifySubscribers demoFind
        { subscribers := [(1, demoQuery)], chans := [] }).subscribers,
      p.2.reverse = false) ∧
    notifySubscribers demoFind { subscribers := [(1, demoQuery)], chans := [] }
      = notifySubscribers reverseTrapFind
          { subscribers := [(1, demoQuery)], chans := [] } :=
  ⟨(notify_normalizes_reverse demoFind
      { subscribers := [(1, demoQuery)], chans := [] }).1,
    (notify_normalizes_reverse demoFind
      { subscribers := [(1, demoQuery)], chans := [] }).2 reverseTrapFind
      (fun q2 h => by simp [reverseTrapFind, h])⟩

/-- C7: for a non-empty historical batch, the resume cursor `LastUUID`
computed by `HandleRead` is the UUID of the first returned event when the
query's `reverse` is set, and the UUID of the last returned event when it
is not. -/
theorem resume_cursor_matches_direction (find : LogQuery → Except GoError (List Event))
    (now : Int) (q : LogQuery) (events : List Event) (e1 e2 : Event)
    (h : find (defaultedQuery now q) = Except.ok events)
    (hhead : events.head? = some e1) (hlast : events.getLast? = some e2) :
    ∃ rsp : ReadResponse, HandleRead find now q = Except.ok rsp ∧
      rsp.lastUUID = (if q.reverse then e1.uuid else e2.uuid) := by
  have hmain : HandleRead find now q = Except.ok
      { formattedEvents := events
        services := q.services
        severity := q.severity
        sinceTime := (defaultedQuery now q).sinceTime
        untilTime := (defaultedQuery now q).untilTime
        lastUUID :=
          if events.length > 0 then
            if q.reverse then ((events.head?).map Event.uuid).getD ""
            else ((events.getLast?).map Event.uuid).getD ""
          else ""
        reverse := q.reverse } := by
    rw [HandleRead_eq_defaulted, h]
  refine ⟨_, hmain, ?_⟩
  have hlen : 0 < events.length := by
    cases events with
    | nil => simp at hhead
    | cons a t => simp
  simp [hlen, hhead, hlast]

/-- C7 witness: the demo store from cursor `"1"`, one-hour defaults, a
reverse-display query: the batch is `["22", "333"]` and the cursor is the
first event's UUID because `reverse` is set. -/
theorem resume_cursor_matches_direction_witness :
    ∃ rsp : ReadResponse, HandleRead demoFind 7200 demoQuery = Except.ok rsp ∧
      rsp.lastUUID
        = (if demoQuery.reverse then (mkEvent "22").uuid else (mkEvent "333").uuid) :=
  resume_cursor_matches_direction demoFind 7200 demoQuery
    [mkEvent "22", mkEvent "333"] (mkEvent "22") (mkEvent "333") rfl rfl rfl

/-- C8: `HandleRead` defaults a zero `SinceTime` to an hour before now
and a zero `UntilTime` to now, leaves set bounds alone, and does so
before the storage query: the response is built from `find` applied to
the defaulted query, and any engine agreeing there is indistinguishable. -/
theorem default_trailing_hour_window (find : LogQuery → Except GoError (List Event))
    (now : Int) (q : LogQuery) (events : List Event)
    (h : find (defaultedQuery now q) = Except.ok events) :
    ∃ rsp : ReadResponse, HandleRead find now q = Except.ok rsp ∧
      rsp.formattedEvents = events ∧
      rsp.sinceTime = (if q.sinceTime = 0 then now - oneHour else q.sinceTime) ∧
      rsp.untilTime = (if q.untilTime = 0 then now else q.untilTime) ∧
      (q.sinceTime ≠ 0 → rsp.sinceTime = q.sinceTime) ∧
      (q.untilTime ≠ 0 → rsp.untilTime = q.untilTime) ∧
      (∀ find' : LogQuery → Except GoError (List Event),
        find' (defaultedQuery now q) = find (defaultedQuery now q) →
        HandleRead find' now q = HandleRead find now q) := by
  have hmain : HandleRead find now q = Except.ok
      { formattedEvents := events
        services := q.services
        severity := q.severity
        sinceTime := (defaultedQuery now q).sinceTime
        untilTime := (defaultedQuery now q).untilTime
        lastUUID :=
          if events.length > 0 then
            if q.reverse then ((events.head?).map Event.uuid).getD ""
            else ((events.getLast?).map Event.uuid).getD ""
          else ""
        reverse := q.reverse } := by
    rw [HandleRead_eq_defaulted, h]
  refine ⟨_, hmain, rfl, ?_, ?_, ?_, ?_, ?_⟩
  · simp [defaultedQuery]
  · simp [defaultedQuery]
  · intro h0
    simp [defaultedQuery, h0]
  · intro h0
    simp [defaultedQuery, h0]
  · intro find' hagree
    rw [HandleRead_eq_defaulted find', HandleRead_eq_defaulted find, hagree]

/-- C8 witness: the demo query leaves both bounds unset; with `now` at
7200 the response covers the window `[3600, 7200]`, built from the
defaulted query. -/
theorem default_trailing_hour_window_witness :
    ∃ rsp : ReadResponse, HandleRead demoFind 7200 demoQuery = Except.ok rsp ∧
      rsp.formattedEvents = [mkEvent "22", mkEvent "333"] ∧
      rsp.sinceTime
        = (if demoQuery.sinceTime = 0 then 7200 - oneHour else demoQuery.sinceTime) ∧
      rsp.untilTime = (if demoQuery.untilTime = 0 then 7200 else demoQuery.untilTime) ∧
      (demoQuery.sinceTime ≠ 0 → rsp.sinceTime = demoQuery.sinceTime) ∧
      (demoQuery.untilTime ≠ 0 → rsp.untilTime = demoQuery.untilTime) ∧
      (∀ find' : LogQuery → Except GoError (List Event),
        find' (defaultedQuery 7200 demoQuery) = demoFind (defaultedQuery 7200 demoQuery) →
        HandleRead find' 7200 demoQuery = HandleRead demoFind 7200 demoQuery) :=
  default_trailing_hour_window demoFind 7200 demoQuery [mkEvent "22", mkEvent "333"] rfl

/-- C9: `Unsubscribe` removes the channel's entry when present — after
the call no entry is keyed by the channel, while every entry of another
channel survives — and is a no-op otherwise: removing twice is the same
as once, a never-subscribed channel leaves the system unchanged, the
channel world is never touched (so nothing is closed and no buffer is
altered), and the function returns nothing, so there is no error. -/
theorem unsubscribe_idempotent (s : System) (c : ChanId) :
    (∀ p ∈ (Unsubscribe s c).subscribers, p.1 ≠ c) ∧
    (∀ p ∈ s.subscribers, p.1 ≠ c → p ∈ (Unsubscribe s c).subscribers) ∧
    Unsubscribe (Unsubscribe s c) c = Unsubscribe s c ∧
    (Unsubscribe s c).chans = s.chans ∧
    ((∀ p ∈ s.subscribers, p.1 ≠ c) → Unsubscribe s c = s) := by
  refine ⟨?_, ?_, ?_, rfl, ?_⟩
  · exact delSub_ne_key s.subscribers c
  · exact fun p hp hne => mem_delSub_of_ne s.subscribers c p hp hne
  · simp [Unsubscribe, delSub_delSub]
  · intro h
    simp [Unsubscribe, delSub_of_not_mem s.subscribers c h]

/-- C9 witness: over a two-subscriber registry, unsubscribing channel 1
removes its entry and keeps channel 3's entry, double removal equals
single removal and the channel world is untouched; unsubscribing the
never-subscribed channel 2 leaves the whole system unchanged. -/
theorem unsubscribe_idempotent_witness :
    (∀ p ∈ (Unsubscribe
        { subscribers := [(1, demoQuery), (3, demoQuery)],
          chans := [(1, { cap := 2, buf := [] })] } 1).subscribers, p.1 ≠ 1) ∧
    ((3, demoQuery) ∈
        ({ subscribers := [(1, demoQuery), (3, demoQuery)],
           chans := [(1, { cap := 2, buf := [] })] } : System).subscribers ∧
      (3, demoQuery) ∈ (Unsubscribe
        { subscribers := [(1, demoQuery), (3, demoQuery)],
          chans := [(1, { cap := 2, buf := [] })] } 1).subscribers) ∧
    Unsubscribe (Unsubscribe
        { subscribers := [(1, demoQuery), (3, demoQuery)],
          chans := [(1, { cap := 2, buf := [] })] } 1) 1
      = Unsubscribe
        { subscribers := [(1, demoQuery), (3, demoQuery)],
          chans := [(1, { cap := 2, buf := [] })] } 1 ∧
    (Unsubscribe
        { subscribers := [(1, demoQuery), (3, demoQuery)],
          chans := [(1, { cap := 2, buf := [] })] } 1).chans
      = ({ subscribers := [(1, demoQuery), (3, demoQuery)],
           chans := [(1, { cap := 2, buf := [] })] } : System).chans ∧
    Unsubscribe
        { subscribers := [(1, demoQuery), (3, demoQuery)],
          chans := [(1, { cap := 2, buf := [] })] } 2
      = { subscribers := [(1, demoQuery), (3, demoQuery)],
          chans := [(1, { cap := 2, buf := [] })] } :=
  ⟨(unsubscribe_idempotent
      { subscribers := [(1, demoQuery), (3, demoQuery)],
        chans := [(1, { cap := 2, buf := [] })] } 1).1,
    ⟨List.mem_cons_of_mem _ (List.mem_cons_self _ _),
      (unsubscribe_idempotent
        { subscribers := [(1, demoQuery), (3, demoQuery)],
          chans := [(1, { cap := 2, buf := [] })] } 1).2.1 (3, demoQuery)
        (List.mem_cons_of_mem _ (List.mem_cons_self _ _)) (by decide)⟩,
    (unsubscribe_idempotent
      { subscribers := [(1, demoQuery), (3, demoQuery)],
        chans := [(1, { cap := 2, buf := [] })] } 1).2.2.1,
    (unsubscribe_idempotent
      { subscribers := [(1, demoQuery), (3, demoQuery)],
        chans := [(1, { cap := 2, buf := [] })] } 1).2.2.2.1,
    (unsubscribe_idempotent
      { subscribers := [(1, demoQuery), (3, demoQuery)],
        chans := [(1, { cap := 2, buf := [] })] } 2).2.2.2.2 (by decide)⟩

/-- C10: a historical page whose query returned no events renders an
empty resume cursor (`LastUUID = ""`), and any live subscription seeded
from that cursor is rejected by `Subscribe` with the empty-cursor error:
a viewer whose first page was empty cannot start a live tail from it. -/
theorem empty_page_cursor_not_subscribable (find : LogQuery → Except GoError (List Event))
    (now : Int) (q : LogQuery)
    (h : find (defaultedQuery now q) = Except.ok ([] : List Event))
    (s : System) (c : ChanId) (q2 : LogQuery) :
    ∃ rsp : ReadResponse, HandleRead find now q = Except.ok rsp ∧
      rsp.lastUUID = "" ∧
      Subscribe s c { q2 with sinceUUID := rsp.lastUUID }
        = Except.error (errorsInternalService "SinceUUID not set in subscriber query") := by
  have hmain : HandleRead find now q = Except.ok
      { formattedEvents := []
        services := q.services
        severity := q.severity
        sinceTime := (defaultedQuery now q).sinceTime
        untilTime := (defaultedQuery now q).untilTime
        lastUUID := ""
        reverse := q.reverse } := by
    rw [HandleRead_eq_defaulted, h]
    rfl
  refine ⟨_, hmain, rfl, ?_⟩
  simp [Subscribe]

/-- C10 witness: an engine with nothing to return: the page's cursor is
empty and seeding a subscription with it is rejected. -/
theorem empty_page_cursor_not_subscribable_witness :
    ∃ rsp : ReadResponse, HandleRead emptyFind 7200 demoQuery = Except.ok rsp ∧
      rsp.lastUUID = "" ∧
      Subscribe { subscribers := [], chans := [] } 0
          { demoQuery with sinceUUID := rsp.lastUUID }
        = Except.error (errorsInternalService "SinceUUID not set in subscriber query") :=
  empty_page_cursor_not_subscribable emptyFind 7200 demoQuery rfl
    { subscribers := [], chans := [] } 0 demoQuery
